import Mathlib

/-!
Shallow embedding of `src/pwm.rs` from libbeaglebone: a controller for one
Linux-kernel PWM channel driven through sysfs file writes, keeping an
in-memory cache (`period`, `duty_cycle`, `state`) of the last values written.

The external world (filesystem) is modelled explicitly: a `World` carries
the existence flag of the per-channel sysfs directory, an oracle deciding
whether each successive write attempt succeeds, and a trace of all write
attempts.  The `f32` arithmetic in `PWM.write` is modelled by an idealized
float type `F32` (exact rationals plus NaN and signed infinities, with IEEE
special-value propagation); the Rust `as u32` float-to-integer cast is
modelled by its documented semantics: truncation toward zero saturated to
`[0, 2^32-1]`, with NaN mapped to 0.
-/

/-- The state in which the PWM is in, either on or off (`enum PWMState`). -/
inductive PWMState where
  | Enabled
  | Disabled
deriving DecidableEq

/-- Represents a PWM device (`struct PWM`).  `pwm_chip_num` and `pwm_num`
are `u8` in the source, `period` and `duty_cycle` are `u32`; they are
modelled as `Nat` (the methods never perform arithmetic on them, so no
wraparound can occur). -/
structure PWM where
  pwm_chip_num : Nat
  pwm_num : Nat
  period : Nat
  duty_cycle : Nat
  state : PWMState
deriving DecidableEq

/-- One attempted write of `content` to the file at `path`; `ok` records
whether the underlying write succeeded. -/
structure FsWrite where
  path : String
  content : String
  ok : Bool
deriving DecidableEq

/-- The external filesystem, as the core observes it: whether the
per-channel sysfs directory currently exists (`path.exists()`), an oracle
giving the outcome of the k-th write attempt, the number of write attempts
made so far, and the trace of attempts. -/
structure World where
  dirExists : Bool
  writeOk : Nat → Bool
  count : Nat
  trace : List FsWrite

/-- The external raw write primitive (`util::write_file(contents, path)`,
spec §1: open-for-write, write full contents, close).  Its success is
decided by the world's oracle; the attempt is recorded in the trace. -/
def write_file (contents path : String) (w : World) : Bool × World :=
  let ok := w.writeOk w.count
  (ok, { w with count := w.count + 1, trace := w.trace ++ [⟨path, contents, ok⟩] })

/-- Number of successful writes in a trace. -/
def succWrites (t : List FsWrite) : Nat :=
  (t.filter (fun e => e.ok)).length

/-- Sysfs chip directory: `/sys/class/pwm/pwmchip{C}`. -/
def chip_path (c : Nat) : String :=
  "/sys/class/pwm/pwmchip" ++ toString c

/-- Sysfs per-channel directory: `/sys/class/pwm/pwmchip{C}/pwm{N}`. -/
def channel_path (c n : Nat) : String :=
  chip_path c ++ "/pwm" ++ toString n

/-- Idealized `f32`: NaN, signed infinity (`neg = true` for `-∞`), or an
exact rational value (rounding of finite arithmetic is idealized as exact;
all concrete values appearing in theorems below are exactly representable
in `f32`, where the two semantics agree). -/
inductive F32 where
  | nan
  | inf (neg : Bool)
  | val (q : ℚ)
deriving DecidableEq

/-- IEEE-754 division on the idealized floats. -/
def F32.div : F32 → F32 → F32
  | .nan, _ => .nan
  | _, .nan => .nan
  | .inf _, .inf _ => .nan
  | .inf s, .val b => .inf (xor s (decide (b < 0)))
  | .val _, .inf _ => .val 0
  | .val a, .val b =>
      if b = 0 then (if a = 0 then .nan else .inf (decide (a < 0))) else .val (a / b)

/-- IEEE-754 multiplication on the idealized floats. -/
def F32.mul : F32 → F32 → F32
  | .nan, _ => .nan
  | _, .nan => .nan
  | .inf s, .inf t => .inf (xor s t)
  | .inf s, .val b => if b = 0 then .nan else .inf (xor s (decide (b < 0)))
  | .val a, .inf t => if a = 0 then .nan else .inf (xor (decide (a < 0)) t)
  | .val a, .val b => .val (a * b)

/-- The Rust `as u32` cast from `f32` (Rust reference, float-to-int `as`):
NaN becomes 0, the value is truncated toward zero and saturated to
`[0, u32::MAX]`.  For `0 ≤ q`, `q.num / q.den` is the Int floor, which for
nonnegative values coincides with truncation toward zero. -/
def F32.as_u32 : F32 → Nat
  | .nan => 0
  | .inf neg => if neg then 0 else 2 ^ 32 - 1
  | .val q => if q < 0 then 0 else min (Int.toNat (q.num / q.den)) (2 ^ 32 - 1)

/-- The duty-cycle computation on line 191 of `pwm.rs`:
`((percentage / 100.0) * (self.period as f32)) as u32`. -/
def computed_duty (percentage : F32) (period : Nat) : Nat :=
  F32.as_u32 (F32.mul (F32.div percentage (F32.val 100)) (F32.val period))

/-- `PWM::new`: pure construction, no I/O (the signature takes no `World`). -/
def PWM.new (m_pwm_chip_num m_pwm_num : Nat) : PWM :=
  { pwm_chip_num := m_pwm_chip_num
    pwm_num := m_pwm_num
    period := 0
    duty_cycle := 0
    state := PWMState.Disabled }

/-- `PWM::set_export(&self, state)`: checks existence of the per-channel
directory; writes the decimal channel number to the chip's `export`
(resp. `unexport`) file only when exporting a non-existent (resp.
unexporting an existent) channel.  `&self` cannot mutate the object, so the
`PWM` is returned unchanged.  On a successful export/unexport write the
kernel creates/removes the per-channel directory (spec §6), reflected in
`World.dirExists`. -/
def PWM.set_export (p : PWM) (state : Bool) (w : World) : PWM × Bool × World :=
  if state && !w.dirExists then
    let r := write_file (toString p.pwm_num) (chip_path p.pwm_chip_num ++ "/export") w
    (p, r.1, if r.1 then { r.2 with dirExists := true } else r.2)
  else if !state && w.dirExists then
    let r := write_file (toString p.pwm_num) (chip_path p.pwm_chip_num ++ "/unexport") w
    (p, r.1, if r.1 then { r.2 with dirExists := false } else r.2)
  else
    (p, true, w)

/-- `PWM::set_period`: writes the decimal period to the `period` file; on
success updates the cached `period`, on failure returns early with the
object unchanged. -/
def PWM.set_period (p : PWM) (period_ns : Nat) (w : World) : PWM × Bool × World :=
  let r := write_file (toString period_ns)
      (channel_path p.pwm_chip_num p.pwm_num ++ "/period") w
  if r.1 then ({ p with period := period_ns }, true, r.2) else (p, false, r.2)

/-- `PWM::set_state`: writes `"1"` for Enabled or `"0"` for Disabled to the
`enable` file; on success updates the cached `state`. -/
def PWM.set_state (p : PWM) (state : PWMState) (w : World) : PWM × Bool × World :=
  let r := write_file
      (match state with
       | PWMState.Enabled => "1"
       | PWMState.Disabled => "0")
      (channel_path p.pwm_chip_num p.pwm_num ++ "/enable") w
  if r.1 then ({ p with state := state }, true, r.2) else (p, false, r.2)

/-- `PWM::write(percentage)`: computes the new duty cycle from the cached
period, writes its decimal string to the `duty_cycle` file; on success
updates the cached `duty_cycle`. -/
def PWM.write (p : PWM) (percentage : F32) (w : World) : PWM × Bool × World :=
  let new_duty_cycle := computed_duty percentage p.period
  let r := write_file (toString new_duty_cycle)
      (channel_path p.pwm_chip_num p.pwm_num ++ "/duty_cycle") w
  if r.1 then ({ p with duty_cycle := new_duty_cycle }, true, r.2) else (p, false, r.2)

/-- `PWM::set_duty_cycle`: writes the decimal duty cycle verbatim to the
`duty_cycle` file; on success updates the cached `duty_cycle`. -/
def PWM.set_duty_cycle (p : PWM) (duty_cycle_ns : Nat) (w : World) : PWM × Bool × World :=
  let r := write_file (toString duty_cycle_ns)
      (channel_path p.pwm_chip_num p.pwm_num ++ "/duty_cycle") w
  if r.1 then ({ p with duty_cycle := duty_cycle_ns }, true, r.2) else (p, false, r.2)

/-- A fresh world for an unexported channel in which every write succeeds. -/
def allOkWorld : World :=
  { dirExists := false, writeOk := fun _ => true, count := 0, trace := [] }

/-- Round toward zero on rationals, as the spec's `round_toward_zero`. -/
def rtz (q : ℚ) : Int :=
  if 0 ≤ q then ⌊q⌋ else ⌈q⌉

/-! ### Helper lemmas -/

lemma succWrites_append (t l : List FsWrite) :
    succWrites (t ++ l) = succWrites t + succWrites l := by
  unfold succWrites
  rw [List.filter_append, List.length_append]

lemma mul_div_as_val (q : ℚ) (per : Nat) :
    F32.mul (F32.div (F32.val q) (F32.val 100)) (F32.val per) = F32.val (q / 100 * per) := by
  simp [F32.div, F32.mul]

/-- The duty-cycle computation on a finite percentage is exactly the
round-toward-zero of the rational product, saturated into the `u32` range. -/
lemma computed_duty_val (q : ℚ) (per : Nat) :
    computed_duty (F32.val q) per = Int.toNat (min (rtz (q / 100 * per)) (2 ^ 32 - 1)) := by
  rw [computed_duty, mul_div_as_val]
  rcases lt_or_le (q / 100 * (per : ℚ)) 0 with hx | hx
  · have hc : ⌈q / 100 * (per : ℚ)⌉ ≤ (0 : ℤ) := by
      rw [Int.ceil_le]
      exact_mod_cast hx.le
    simp [F32.as_u32, rtz, hx, not_le.mpr hx]
    omega
  · have hf : (0 : ℤ) ≤ ⌊q / 100 * (per : ℚ)⌋ := Int.floor_nonneg.mpr hx
    simp [F32.as_u32, rtz, not_lt.mpr hx, hx, ← Rat.floor_def]
    omega

lemma rtz_intCast (n : ℤ) : rtz ((n : ℚ)) = n := by
  unfold rtz
  split <;> simp

lemma computed_duty_50_500000 : computed_duty (F32.val 50) 500000 = 250000 := by
  have h : ((50 : ℚ) / 100 * ((500000 : Nat) : ℚ)) = ((250000 : ℤ) : ℚ) := by norm_num
  rw [computed_duty_val, h, rtz_intCast]
  decide

lemma computed_duty_neg50_500000 : computed_duty (F32.val (-50)) 500000 = 0 := by
  have h : ((-50 : ℚ) / 100 * ((500000 : Nat) : ℚ)) = ((-250000 : ℤ) : ℚ) := by norm_num
  rw [computed_duty_val, h, rtz_intCast]
  decide

lemma computed_duty_neg25_500000 : computed_duty (F32.val (-25)) 500000 = 0 := by
  have h : ((-25 : ℚ) / 100 * ((500000 : Nat) : ℚ)) = ((-125000 : ℤ) : ℚ) := by norm_num
  rw [computed_duty_val, h, rtz_intCast]
  decide

lemma computed_duty_period_zero (pct : F32) : computed_duty pct 0 = 0 := by
  cases pct with
  | nan => rfl
  | inf s => simp [computed_duty, F32.div, F32.mul, F32.as_u32]
  | val q => simp [computed_duty, F32.div, F32.mul, F32.as_u32]

lemma as_u32_lt (f : F32) : F32.as_u32 f < 2 ^ 32 := by
  cases f with
  | nan => decide
  | inf s => cases s <;> decide
  | val q =>
      simp only [F32.as_u32]
      split
      · positivity
      · omega

/-! ### Claim theorems -/

/-- C6: `new(chip_index, channel_index)` performs no I/O (its type involves
no `World`) and returns a channel with the given identity, cached period 0,
duty cycle 0 and state Disabled. -/
theorem C6_new_pure (c n : Nat) :
    (PWM.new c n).pwm_chip_num = c ∧ (PWM.new c n).pwm_num = n ∧
    (PWM.new c n).period = 0 ∧ (PWM.new c n).duty_cycle = 0 ∧
    (PWM.new c n).state = PWMState.Disabled :=
  ⟨rfl, rfl, rfl, rfl, rfl⟩

/-- C7: `set_export` never updates any in-memory field: for either boolean
argument and any world (so on success as well as failure), the returned
object is identical to the one passed in (`&self` receiver). -/
theorem C7_set_export_frame (p : PWM) (s : Bool) (w : World) :
    (p.set_export s w).1 = p := by
  unfold PWM.set_export
  split
  · rfl
  · split <;> rfl

/-- C1: every fallible setter is atomic.  The returned success flag equals
the write oracle's verdict for the attempted write, and the returned object
is the input object with exactly the corresponding field updated when the
write succeeds, and the input object unchanged when it fails. -/
theorem C1_setters_atomic (p : PWM) (w : World) (n d : Nat) (st : PWMState) (pct : F32) :
    ((p.set_period n w).1 = if w.writeOk w.count then { p with period := n } else p) ∧
    (p.set_period n w).2.1 = w.writeOk w.count ∧
    ((p.set_state st w).1 = if w.writeOk w.count then { p with state := st } else p) ∧
    (p.set_state st w).2.1 = w.writeOk w.count ∧
    ((p.write pct w).1 =
      if w.writeOk w.count then { p with duty_cycle := computed_duty pct p.period } else p) ∧
    (p.write pct w).2.1 = w.writeOk w.count ∧
    ((p.set_duty_cycle d w).1 = if w.writeOk w.count then { p with duty_cycle := d } else p) ∧
    (p.set_duty_cycle d w).2.1 = w.writeOk w.count := by
  cases h : w.writeOk w.count <;>
    simp [PWM.set_period, PWM.set_state, PWM.write, PWM.set_duty_cycle, write_file, h]

/-- C8: `set_state` writes `"1"` to the channel's enable file for Enabled
and `"0"` for Disabled; on success the cached state equals the argument
(and on failure it is unchanged, so the cache always reflects the most
recent successful call). -/
theorem C8_set_state (p : PWM) (st : PWMState) (w : World) :
    ((p.set_state st w).2.2).trace =
      w.trace ++ [⟨channel_path p.pwm_chip_num p.pwm_num ++ "/enable",
                   if st = PWMState.Enabled then "1" else "0",
                   w.writeOk w.count⟩] ∧
    ((p.set_state st w).1.state = if w.writeOk w.count then st else p.state) ∧
    (p.set_state st w).2.1 = w.writeOk w.count := by
  cases h : w.writeOk w.count <;> cases st <;>
    simp [PWM.set_state, write_file, h]

/-- C9: `set_duty_cycle` writes the decimal string of its argument verbatim
to the duty_cycle file — the content written is `toString duty_cycle_ns`
for every object, whatever its cached period, with no bound check — and on
success the cache is set to that value (even when it exceeds the period). -/
theorem C9_set_duty_cycle (p : PWM) (d : Nat) (w : World) :
    ((p.set_duty_cycle d w).2.2).trace =
      w.trace ++ [⟨channel_path p.pwm_chip_num p.pwm_num ++ "/duty_cycle",
                   toString d, w.writeOk w.count⟩] ∧
    ((p.set_duty_cycle d w).1.duty_cycle = if w.writeOk w.count then d else p.duty_cycle) ∧
    (p.set_duty_cycle d w).2.1 = w.writeOk w.count := by
  cases h : w.writeOk w.count <;> simp [PWM.set_duty_cycle, write_file, h]

/-- C2 counterexample: with cached period 500000, `write(-50.0)` does not
write `round_toward_zero((-50/100) * 500000) = -250000`: the saturating
`as u32` cast turns the negative product into 0, so the string written is
`"0"`, not `"-250000"`. -/
theorem C2_cex_write_neg :
    rtz ((-50 : ℚ) / 100 * ((500000 : Nat) : ℚ)) = -250000 ∧
    ((PWM.mk 0 0 500000 0 PWMState.Disabled).write (F32.val (-50)) allOkWorld).2.2.trace =
      [⟨channel_path 0 0 ++ "/duty_cycle", "0", true⟩] ∧
    toString (-250000 : Int) = "-250000" ∧ "0" ≠ "-250000" := by
  refine ⟨?_, ?_, by decide, by decide⟩
  · have h : ((-50 : ℚ) / 100 * ((500000 : Nat) : ℚ)) = ((-250000 : ℤ) : ℚ) := by norm_num
    rw [h, rtz_intCast]
  · simp [PWM.write, write_file, allOkWorld, computed_duty_neg50_500000]
    decide

/-- C2 (amended): `write(percentage)` computes the duty cycle from the
currently cached period as the round-toward-zero of `(percentage/100) *
period_ns` saturated into the `u32` range (negative results become 0,
results at or above `2^32` become `2^32 - 1`), writes its decimal string
to the duty_cycle file, on success sets the cached duty_cycle to that
value, and when the cached period is 0 the computed duty cycle is 0 for
every percentage with no error beyond the I/O outcome itself. -/
theorem C2_write_semantics (p : PWM) (pct : F32) (w : World) (q : ℚ) (per : Nat) :
    ((p.write pct w).2.2).trace =
      w.trace ++ [⟨channel_path p.pwm_chip_num p.pwm_num ++ "/duty_cycle",
                   toString (computed_duty pct p.period), w.writeOk w.count⟩] ∧
    ((p.write pct w).1 =
      if w.writeOk w.count then { p with duty_cycle := computed_duty pct p.period } else p) ∧
    (p.write pct w).2.1 = w.writeOk w.count ∧
    computed_duty (F32.val q) per = Int.toNat (min (rtz (q / 100 * per)) (2 ^ 32 - 1)) ∧
    computed_duty pct 0 = 0 := by
  refine ⟨?_, ?_, ?_, computed_duty_val q per, computed_duty_period_zero pct⟩ <;>
    cases h : w.writeOk w.count <;> simp [PWM.write, write_file, h]

/-- C5: `set_export` is idempotent with respect to the directory's
existence: when the directory exists, `set_export(true)` performs no write
at all, returns success and leaves the world untouched; when it does not
exist, `set_export(false)` likewise performs no write and returns success;
and any two successive `set_export(true)` calls perform at most one
successful export write in total. -/
theorem C5_set_export_idempotent (p : PWM) (w w' : World)
    (h1 : w.dirExists = true) (h2 : w'.dirExists = false) :
    p.set_export true w = (p, true, w) ∧
    p.set_export false w' = (p, true, w') ∧
    (∀ p2 : PWM, ∀ w2 : World,
      succWrites ((p2.set_export true ((p2.set_export true w2).2.2)).2.2).trace ≤
        succWrites w2.trace + 1) := by
  refine ⟨by simp [PWM.set_export, h1], by simp [PWM.set_export, h2], ?_⟩
  intro p2 w2
  by_cases hd : w2.dirExists
  · simp [PWM.set_export, hd]
  · cases hk : w2.writeOk w2.count
    · cases hk2 : w2.writeOk (w2.count + 1) <;>
        simp [PWM.set_export, write_file, hd, hk, hk2, succWrites_append, succWrites,
          List.filter]
    · simp [PWM.set_export, write_file, hd, hk, succWrites_append, succWrites, List.filter]

/-- C5 witness: the hypotheses are satisfiable — an existing-directory
world and a fresh world instantiate the two no-op parts. -/
theorem C5_set_export_idempotent_witness :
    (PWM.new 0 0).set_export true
        { dirExists := true, writeOk := fun _ => true, count := 0, trace := [] } =
      (PWM.new 0 0, true,
        { dirExists := true, writeOk := fun _ => true, count := 0, trace := [] }) ∧
    (PWM.new 0 0).set_export false allOkWorld = (PWM.new 0 0, true, allOkWorld) := by
  have h := C5_set_export_idempotent (PWM.new 0 0)
      { dirExists := true, writeOk := fun _ => true, count := 0, trace := [] }
      allOkWorld rfl rfl
  exact ⟨h.1, h.2.1⟩

/-- C3 counterexample: the percentage −25 is outside `[0,100]`, yet with
cached period 500000 the value passed to the kernel is `"0"` — neither a
negative value (the product −125000 was corrected to 0 by the saturating
cast) nor an over-period value. -/
theorem C3_cex_neg_percentage :
    ((-25 : ℚ) < 0 ∨ 100 < (-25 : ℚ)) ∧
    computed_duty (F32.val (-25)) 500000 = 0 ∧
    ¬ 500000 < computed_duty (F32.val (-25)) 500000 ∧
    ((PWM.mk 0 0 500000 0 PWMState.Disabled).write (F32.val (-25)) allOkWorld).2.2.trace =
      [⟨channel_path 0 0 ++ "/duty_cycle", "0", true⟩] := by
  refine ⟨Or.inl (by norm_num), computed_duty_neg25_500000, ?_, ?_⟩
  · rw [computed_duty_neg25_500000]
    omega
  · simp [PWM.write, write_file, allOkWorld, computed_duty_neg25_500000]
    decide

/-- C3 (amended): percentages outside `[0,100]` are not rejected — `write`
always attempts the underlying I/O, whatever the percentage, and passes the
computed value through with no correction against the period; a percentage
above 100 with a positive period yields a value at least the period, while
a negative percentage yields 0 (the saturating cast), not a negative
value. -/
theorem C3_out_of_range_not_rejected (per : Nat) (q1 q2 : ℚ)
    (h1 : q1 < 0) (h2 : 100 < q2) (hper : 0 < per) (hper32 : per < 2 ^ 32) :
    (∀ p : PWM, ∀ pct : F32, ∀ w : World,
      ((p.write pct w).2.2).count = w.count + 1 ∧
      ((p.write pct w).2.2).trace.length = w.trace.length + 1 ∧
      (p.write pct w).2.1 = w.writeOk w.count) ∧
    computed_duty (F32.val q1) per = 0 ∧
    per ≤ computed_duty (F32.val q2) per := by
  refine ⟨?_, ?_, ?_⟩
  · intro p pct w
    cases h : w.writeOk w.count <;> simp [PWM.write, write_file, h]
  · have hx : q1 / 100 * (per : ℚ) < 0 := by
      apply mul_neg_of_neg_of_pos (div_neg_of_neg_of_pos h1 (by norm_num))
      exact_mod_cast hper
    have hc : ⌈q1 / 100 * (per : ℚ)⌉ ≤ (0 : ℤ) := by
      rw [Int.ceil_le]
      exact_mod_cast hx.le
    rw [computed_duty_val, rtz, if_neg (not_le.mpr hx)]
    omega
  · have hdiv : (1 : ℚ) ≤ q2 / 100 := by
      rw [one_le_div (by norm_num : (0 : ℚ) < 100)]
      exact h2.le
    have hge : ((per : ℤ) : ℚ) ≤ q2 / 100 * (per : ℚ) := by
      push_cast
      calc ((per : ℚ)) = 1 * (per : ℚ) := by ring
        _ ≤ q2 / 100 * (per : ℚ) := by
            apply mul_le_mul_of_nonneg_right hdiv
            positivity
    have hx : (0 : ℚ) ≤ q2 / 100 * (per : ℚ) := le_trans (by positivity) hge
    have hf : (per : ℤ) ≤ ⌊q2 / 100 * (per : ℚ)⌋ := Int.le_floor.mpr hge
    rw [computed_duty_val, rtz, if_pos hx]
    omega

/-- C3 witness: the hypotheses hold at percentage −25 (negative) and 150
(above 100) with period 500000. -/
theorem C3_out_of_range_not_rejected_witness :
    computed_duty (F32.val (-25)) 500000 = 0 ∧
    500000 ≤ computed_duty (F32.val 150) 500000 :=
  ⟨(C3_out_of_range_not_rejected 500000 (-25) 150 (by norm_num) (by norm_num)
      (by norm_num) (by norm_num)).2.1,
   (C3_out_of_range_not_rejected 500000 (-25) 150 (by norm_num) (by norm_num)
      (by norm_num) (by norm_num)).2.2⟩

/-- C10: the `as u32` conversion in `write` is total and saturating: every
computed duty cycle is a well-defined value below `2^32`; NaN and negative
inputs give 0, inputs at or above `2^32` (and `+∞`) give `2^32 - 1`, `-∞`
gives 0 — the conversion never panics, wraps, or yields a negative
number. -/
theorem C10_cast_total_saturating (q1 q2 : ℚ) (h1 : q1 < 0) (h2 : (2 : ℚ) ^ 32 ≤ q2) :
    (∀ f : F32, ∀ n : Nat, computed_duty f n < 2 ^ 32) ∧
    (∀ f : F32, F32.as_u32 f < 2 ^ 32) ∧
    F32.as_u32 F32.nan = 0 ∧
    F32.as_u32 (F32.val q1) = 0 ∧
    F32.as_u32 (F32.val q2) = 2 ^ 32 - 1 ∧
    F32.as_u32 (F32.inf true) = 0 ∧
    F32.as_u32 (F32.inf false) = 2 ^ 32 - 1 := by
  refine ⟨fun f n => as_u32_lt _, as_u32_lt, rfl, ?_, ?_, rfl, rfl⟩
  · simp [F32.as_u32, h1]
  · have h0 : ¬ q2 < 0 := not_lt.mpr (le_trans (by positivity) h2)
    have hf : ((2 : ℤ) ^ 32) ≤ ⌊q2⌋ := by
      rw [Int.le_floor]
      exact_mod_cast h2
    simp only [F32.as_u32, h0, if_false, ← Rat.floor_def]
    omega

/-- C10 witness: the hypotheses hold at −1 and `2^32`. -/
theorem C10_cast_total_saturating_witness :
    F32.as_u32 (F32.val (-1)) = 0 ∧ F32.as_u32 (F32.val ((2 : ℚ) ^ 32)) = 2 ^ 32 - 1 :=
  ⟨(C10_cast_total_saturating (-1) ((2 : ℚ) ^ 32) (by norm_num) le_rfl).2.2.2.1,
   (C10_cast_total_saturating (-1) ((2 : ℚ) ^ 32) (by norm_num) le_rfl).2.2.2.2.1⟩

/-- Step 1 of the end-to-end scenario: `new(0,0)` then `set_export(true)`
on a fresh, all-successful filesystem. -/
def c4_s1 : PWM × Bool × World := (PWM.new 0 0).set_export true allOkWorld

/-- Step 2: `set_period(500000)`. -/
def c4_s2 : PWM × Bool × World := c4_s1.1.set_period 500000 c4_s1.2.2

/-- Step 3: `set_state(Enabled)`. -/
def c4_s3 : PWM × Bool × World := c4_s2.1.set_state PWMState.Enabled c4_s2.2.2

/-- Step 4: `write(50.0)`. -/
def c4_s4 : PWM × Bool × World := c4_s3.1.write (F32.val 50) c4_s3.2.2

/-- C4 counterexample: the end-to-end sequence performs exactly four
underlying file writes, not five. -/
theorem C4_cex_four_writes :
    c4_s4.2.2.trace.length = 4 ∧ c4_s4.2.2.trace.length ≠ 5 := by
  have hd : computed_duty (F32.val 50) 500000 = 250000 := computed_duty_50_500000
  have h : c4_s4.2.2.trace.length = 4 := by
    simp [c4_s4, c4_s3, c4_s2, c4_s1, PWM.set_export, PWM.set_period, PWM.set_state,
      PWM.write, write_file, allOkWorld, PWM.new, hd]
  exact ⟨h, by omega⟩

/-- C4 (amended): the sequence `new(0,0); set_export(true);
set_period(500000); set_state(Enabled); write(50.0)` with all I/O
succeeding returns success at every step, leaves the cache at
period 500000, duty_cycle 250000, state Enabled, and performs exactly four
underlying file writes, in the call order export, period, enable,
duty_cycle, with the literal payloads "0", "500000", "1", "250000". -/
theorem C4_scenario :
    c4_s1.2.1 = true ∧ c4_s2.2.1 = true ∧ c4_s3.2.1 = true ∧ c4_s4.2.1 = true ∧
    c4_s4.1 = PWM.mk 0 0 500000 250000 PWMState.Enabled ∧
    c4_s4.2.2.trace =
      [⟨chip_path 0 ++ "/export", "0", true⟩,
       ⟨channel_path 0 0 ++ "/period", "500000", true⟩,
       ⟨channel_path 0 0 ++ "/enable", "1", true⟩,
       ⟨channel_path 0 0 ++ "/duty_cycle", "250000", true⟩] := by
  have hd : computed_duty (F32.val 50) 500000 = 250000 := computed_duty_50_500000
  refine ⟨?_, ?_, ?_, ?_, ?_, ?_⟩ <;>
    simp [c4_s4, c4_s3, c4_s2, c4_s1, PWM.set_export, PWM.set_period, PWM.set_state,
      PWM.write, write_file, allOkWorld, PWM.new, hd] <;>
    decide
